import Mathlib

/-!
Verification development for the andru-assessment-backend assessment pipeline.

The definitions below are a shallow embedding of the TypeScript sources:
JavaScript numbers are modelled as `Rat`, JS truthiness of optional
string/number fields is modelled explicitly, async functions that can throw
are modelled as `Except`-valued functions, and the external AI endpoint and
the pseudo-random generator are modelled as explicit oracle parameters.
-/

namespace AndruSpec

/-- JS truthiness of an optional string field: absent (`undefined`/`null`)
and the empty string are falsy. -/
def truthyStr : Option String → Bool
  | none => false
  | some s => !s.isEmpty

/-- JS `v || d` for a string-valued field: the default is taken when the
field is absent or the empty string. -/
def jsOrStr (v : Option String) (d : String) : String :=
  match v with
  | none => d
  | some s => if s.isEmpty then d else s

/-- JS `v || d` for a number-valued field: the default is taken when the
field is absent or equal to 0 (0 is falsy in JS). -/
def jsOrNum (v : Option Rat) (d : Rat) : Rat :=
  match v with
  | none => d
  | some x => if x = 0 then d else x

/-- Error taxonomy of `src/services/errorHandler.ts`: each `AssessmentError`
subclass is identified by its kind (the source distinguishes them by
`instanceof` checks on the class). -/
inductive ErrKind where
  | validation
  | authentication
  | authorization
  | notFound
  | rateLimit
  | externalService
  | database
  | configuration
  | unknown
  | jsUndefined
deriving DecidableEq, Repr

/-- An error value as raised inside the services: a kind plus a message. -/
structure JsError where
  kind : ErrKind
  message : String
deriving DecidableEq, Repr

/-- RetryHandler.withRetry, lines 327-331: `error instanceof ValidationError
|| error instanceof AuthenticationError || error instanceof
AuthorizationError` — the kinds that are never retried. -/
def nonRetryable (e : JsError) : Bool :=
  match e.kind with
  | ErrKind.validation => true
  | ErrKind.authentication => true
  | ErrKind.authorization => true
  | _ => false

/-- Observable trace of one `RetryHandler.withRetry` run: the final outcome,
how many times the operation was invoked, and the backoff delays slept
between invocations (in ms). -/
structure RetryResult (α : Type) where
  result : Except JsError α
  invocations : Nat
  delays : List Rat
deriving Repr

/-- Loop body of `RetryHandler.withRetry` (errorHandler.ts lines 317-337).
`op` maps the 0-indexed attempt number to that invocation's outcome;
`fuel` is the number of loop iterations left (`maxRetries - attempt`), so
`fuel = 1` exactly when `attempt === maxRetries - 1`, the iteration whose
failure breaks out of the loop before the non-retryable check. After a
retryable failure the handler sleeps `delayMs * backoffMultiplier ^ attempt`
and retries. -/
def withRetryGo (op : Nat → Except JsError α) (delayMs mult : Rat) :
    Nat → Nat → List Rat → RetryResult α
  | _, 0, ds => ⟨Except.error ⟨ErrKind.jsUndefined, "undefined"⟩, 0, ds⟩
  | attempt, 1, ds =>
    match op attempt with
    | Except.ok v => ⟨Except.ok v, attempt + 1, ds⟩
    | Except.error e => ⟨Except.error e, attempt + 1, ds⟩
  | attempt, fuel + 2, ds =>
    match op attempt with
    | Except.ok v => ⟨Except.ok v, attempt + 1, ds⟩
    | Except.error e =>
      if nonRetryable e then ⟨Except.error e, attempt + 1, ds⟩
      else
        withRetryGo op delayMs mult (attempt + 1) (fuel + 1)
          (ds ++ [delayMs * mult ^ attempt])

/-- `RetryHandler.withRetry(operation, maxRetries, delayMs,
backoffMultiplier)` (errorHandler.ts lines 309-340): runs the loop for at
most `maxRetries` iterations; with `maxRetries = 0` the loop never runs and
the uninitialised `lastError` (JS `undefined`) is thrown. -/
def withRetry (op : Nat → Except JsError α) (maxRetries : Nat)
    (delayMs mult : Rat) : RetryResult α :=
  withRetryGo op delayMs mult 0 maxRetries []

/-- CircuitBreaker state value, errorHandler.ts lines 345-350. -/
inductive CBMode where
  | closed
  | opened
  | halfOpen
deriving DecidableEq, Repr

/-- Per-key circuit breaker record (errorHandler.ts lines 393-398 give the
default for an unseen key). -/
structure CBState where
  mode : CBMode
  failureCount : Nat
  lastFailureTime : Int
  successCount : Nat
deriving DecidableEq, Repr

/-- Initial record for a fresh operation key. -/
def cbInit : CBState := ⟨CBMode.closed, 0, 0, 0⟩

/-- Options of `CircuitBreaker.execute`; defaults are 5 / 60000 / 3. -/
structure CBOptions where
  failureThreshold : Nat
  recoveryTimeout : Int
  successThreshold : Nat
deriving DecidableEq, Repr

/-- Outcome of one `CircuitBreaker.execute` call: `rejected` means the
breaker threw "Circuit breaker is open" without invoking the operation. -/
inductive CBResult where
  | rejected
  | succeeded
  | failed
deriving DecidableEq, Repr

/-- One call of `CircuitBreaker.execute` (errorHandler.ts lines 380-434).
`now` is `Date.now()` at this call and `ob` the outcome the wrapped
operation would produce if invoked. While open and within
`recoveryTimeout` of the last failure the call throws without invoking the
operation; otherwise an open breaker first moves to half-open with
`successCount` reset. A success resets `failureCount`, increments
`successCount`, and closes a half-open breaker that has reached
`successThreshold`; a failure increments `failureCount`, records the time,
and opens the breaker when `failureCount` reaches `failureThreshold`. -/
def cbExecute (opts : CBOptions) (now : Int) (ob : Bool) (st : CBState) :
    CBState × CBResult :=
  if st.mode = CBMode.opened ∧ ¬ opts.recoveryTimeout < now - st.lastFailureTime then
    (st, CBResult.rejected)
  else
    let st1 := if st.mode = CBMode.opened then
        { st with mode := CBMode.halfOpen, successCount := 0 }
      else st
    if ob then
      let st2 := { st1 with failureCount := 0, successCount := st1.successCount + 1 }
      if st2.mode = CBMode.halfOpen ∧ opts.successThreshold ≤ st2.successCount then
        ({ st2 with mode := CBMode.closed }, CBResult.succeeded)
      else (st2, CBResult.succeeded)
    else
      let st2 := { st1 with failureCount := st1.failureCount + 1, lastFailureTime := now }
      if opts.failureThreshold ≤ st2.failureCount then
        ({ st2 with mode := CBMode.opened }, CBResult.failed)
      else (st2, CBResult.failed)

/-- Fold a sequence of calls (time, operation outcome) through the breaker,
keeping the per-key state exactly as the static `states` map does. -/
def cbRun (opts : CBOptions) (st : CBState) (calls : List (Int × Bool)) : CBState :=
  calls.foldl (fun s c => (cbExecute opts c.1 c.2 s).1) st

/-- One recorded answer (`AssessmentResponse` of services/types).
The answer itself is a JS number or string. -/
inductive JsVal where
  | num (x : Rat)
  | str (s : String)
deriving DecidableEq, Repr

/-- Response type union of the `AssessmentResponse` interface. -/
inductive ResponseType where
  | multipleChoice
  | scale
  | text
deriving DecidableEq, Repr

/-- `AssessmentResponse` record. -/
structure AssessmentResponse where
  questionId : String
  questionText : String
  response : JsVal
  responseType : ResponseType
  timestamp : Rat
deriving DecidableEq, Repr

/-- Session-level `Insight` record as stored in `session.insights`
(AssessmentServiceLite interface). -/
structure Insight where
  id : String
  sessionId : String
  batchNumber : Nat
  questionRange : String
  insight : String
  challengeIdentified : String
  businessImpact : String
  confidence : Rat
  generatedAt : String
deriving DecidableEq, Repr

/-- User info carried by an assessment session. -/
structure UserInfo where
  email : String
  company : String
  productName : String
  productDescription : String
  businessModel : String
deriving DecidableEq, Repr

/-- User info subset carried by an insight request. -/
structure InsightUserInfo where
  company : String
  productName : String
  businessModel : String
deriving DecidableEq, Repr

/-- Argument of `ClaudeAIService.generateInsight`
(`AssessmentInsightRequest`). -/
structure AssessmentInsightRequest where
  responses : List AssessmentResponse
  batchNumber : Nat
  previousInsights : Option (List Insight)
  userInfo : InsightUserInfo
deriving DecidableEq, Repr

/-- Validated AI insight value (`AIInsightResponse` in claudeAIService). -/
structure AIInsightResponse where
  challengeIdentified : String
  insight : String
  businessImpact : String
  confidence : Rat
  reasoning : String
deriving DecidableEq, Repr

/-- Raw JSON object extracted from the AI reply text before validation: each
field may be absent; this models the parsed value of the first
`/\x7b[\s\S]*\x7d/` match after `JSON.parse`. -/
structure RawInsightPayload where
  challengeIdentified : Option String
  insight : Option String
  businessImpact : Option String
  confidence : Option Rat
  reasoning : Option String
deriving DecidableEq, Repr

/-- Fixed text pool used by `ClaudeAIService.getFallbackInsight`
(claudeAIService lines 387-388). -/
def fallbackChallenges : List String :=
  ["Technical Translation Challenge", "Buyer Conversations Challenge",
    "Competitive Positioning Challenge"]

/-- `ClaudeAIService.getFallbackInsight` (claudeAIService lines 386-397).
The request argument is accepted and ignored, exactly as in the source; the
challenge name is picked by `Math.floor(Math.random() * 3)`, modelled by the
explicit draw `rand`. -/
def getFallbackInsight (_request : AssessmentInsightRequest) (rand : Fin 3) :
    AIInsightResponse where
  challengeIdentified := fallbackChallenges.get ⟨rand.1, by
    have h := rand.2
    simp only [fallbackChallenges, List.length_cons, List.length_nil]
    omega⟩
  insight := "Based on your responses, you show strong technical understanding but may benefit from focusing on buyer-centric conversations to improve deal outcomes."
  businessImpact := "Potential revenue impact from improved sales conversations"
  confidence := 70
  reasoning := "Fallback analysis based on standard assessment patterns"

/-- Dummy request passed to the fallback from the catch branch of
`parseInsightResponse` (claudeAIService line 342). -/
def emptyInsightRequest : AssessmentInsightRequest where
  responses := []
  batchNumber := 1
  previousInsights := none
  userInfo := ⟨"", "", ""⟩

/-- `ClaudeAIService.parseInsightResponse` (claudeAIService lines 319-344).
`resp = none` models a reply in which no JSON object was found or
`JSON.parse` threw; a payload with falsy `challengeIdentified` or `insight`
is rejected; every failure falls back. The confidence of an accepted
payload is `Math.min(95, Math.max(60, parsed.confidence || 75))`, with no
dependence on the batch number. -/
def parseInsightResponse (rand : Fin 3) (resp : Option RawInsightPayload) :
    AIInsightResponse :=
  match resp with
  | none => getFallbackInsight emptyInsightRequest rand
  | some p =>
    if truthyStr p.challengeIdentified ∧ truthyStr p.insight then
      { challengeIdentified := (p.challengeIdentified).getD ""
        insight := (p.insight).getD ""
        businessImpact := jsOrStr p.businessImpact "Revenue impact"
        confidence := min 95 (max 60 (jsOrNum p.confidence 75))
        reasoning := jsOrStr p.reasoning "AI analysis based on assessment responses" }
    else getFallbackInsight emptyInsightRequest rand

/-- Oracle for one insight-generation run of the Claude AI service:
whether the API key is configured, the outcome of `callClaudeAPI` (an
exception, or the reply text abstracted as its extracted first JSON
object), and the `Math.random` draw available to the fallback path. -/
structure InsightEnv where
  configured : Bool
  callResult : Except JsError (Option RawInsightPayload)
  rand : Fin 3

/-- Body of the `try` block of `ClaudeAIService.generateInsight`
(claudeAIService lines 108-121): build the prompt, call the API
(propagating any exception), parse the reply. -/
def generateInsightTry (env : InsightEnv) : Except JsError AIInsightResponse := do
  let payload ← env.callResult
  pure (parseInsightResponse env.rand payload)

/-- `ClaudeAIService.generateInsight` (claudeAIService lines 103-126): an
unconfigured service returns the fallback immediately, and the catch branch
turns every exception of the try block into the fallback. -/
def generateInsight (env : InsightEnv) (request : AssessmentInsightRequest) :
    Except JsError AIInsightResponse :=
  if env.configured then
    match generateInsightTry env with
    | Except.ok insight => Except.ok insight
    | Except.error _ => Except.ok (getFallbackInsight request env.rand)
  else Except.ok (getFallbackInsight request env.rand)

/-- `RealTimeInsightService.parseAIResponse`
(realTimeInsightService.ts lines 155-178): unlike the claudeAIService
parser this one throws on a missing field, requires `confidence` to be a
number, and clamps it into [70, 95] — again with no dependence on the batch
number; an in-range confidence is returned unchanged. -/
def parseAIResponse (resp : Option RawInsightPayload) :
    Except JsError AIInsightResponse :=
  match resp with
  | none => Except.error ⟨ErrKind.unknown, "No JSON found in AI response"⟩
  | some p =>
    if truthyStr p.challengeIdentified ∧ truthyStr p.insight ∧
        truthyStr p.businessImpact ∧ (p.confidence).isSome ∧
        truthyStr p.reasoning then
      match p.confidence with
      | none => Except.error ⟨ErrKind.unknown, "AI response missing required fields"⟩
      | some c =>
        Except.ok
          { challengeIdentified := (p.challengeIdentified).getD ""
            insight := (p.insight).getD ""
            businessImpact := (p.businessImpact).getD ""
            confidence := if c < 70 ∨ 95 < c then max 70 (min 95 c) else c
            reasoning := (p.reasoning).getD "" }
    else Except.error ⟨ErrKind.unknown, "AI response missing required fields"⟩

/-- Skill level scores of the final assessment (five named areas). -/
structure SkillLevels where
  customerAnalysis : Rat
  businessCommunication : Rat
  revenueStrategy : Rat
  valueArticulation : Rat
  strategicThinking : Rat
deriving DecidableEq, Repr

/-- Priority union used by challenges and recommendations. -/
inductive Priority where
  | critical
  | high
  | medium
  | low
deriving DecidableEq, Repr

/-- Challenge record of the final assessment. -/
structure Challenge where
  name : String
  description : String
  priority : Priority
  impact : Rat
  businessConsequence : String
deriving DecidableEq, Repr

/-- Recommendation record of the final assessment. -/
structure Recommendation where
  category : String
  title : String
  description : String
  priority : Priority
  expectedOutcome : String
  timeframe : String
  tools : List String
deriving DecidableEq, Repr

/-- Validated final assessment value (`AIAssessmentResponse`). -/
structure AIAssessmentResponse where
  overallScore : Rat
  performanceLevel : String
  skillLevels : SkillLevels
  challenges : List Challenge
  recommendations : List Recommendation
  focusArea : String
  revenueOpportunity : Rat
  roiMultiplier : Rat
  nextSteps : List String
  confidence : Rat
deriving DecidableEq, Repr

/-- Raw `skillLevels` object of the AI reply, each field possibly absent. -/
structure RawSkillLevels where
  customerAnalysis : Option Rat
  businessCommunication : Option Rat
  revenueStrategy : Option Rat
  valueArticulation : Option Rat
  strategicThinking : Option Rat
deriving DecidableEq, Repr

/-- Raw JSON object extracted from the final-assessment AI reply before
validation and defaulting. -/
structure RawFinalPayload where
  overallScore : Option Rat
  performanceLevel : Option String
  skillLevels : Option RawSkillLevels
  challenges : Option (List Challenge)
  recommendations : Option (List Recommendation)
  focusArea : Option String
  revenueOpportunity : Option Rat
  roiMultiplier : Option Rat
  nextSteps : Option (List String)
  confidence : Option Rat
deriving DecidableEq, Repr

/-- User info subset carried by a final-assessment request. -/
structure FinalUserInfo where
  company : String
  productName : String
  businessModel : String
  productDescription : String
deriving DecidableEq, Repr

/-- Argument of `ClaudeAIService.generateFinalAssessment`
(`FinalAssessmentRequest`). -/
structure FinalAssessmentRequest where
  responses : List AssessmentResponse
  insights : List Insight
  userInfo : FinalUserInfo
deriving DecidableEq, Repr

/-- `ClaudeAIService.getFallbackAssessment` (claudeAIService lines 402-443):
the fixed baseline result; the request argument is ignored. -/
def getFallbackAssessment (_request : FinalAssessmentRequest) :
    AIAssessmentResponse where
  overallScore := 70
  performanceLevel := "Competent"
  skillLevels :=
    { customerAnalysis := 7
      businessCommunication := 6
      revenueStrategy := 8
      valueArticulation := 7
      strategicThinking := 6 }
  challenges :=
    [{ name := "Technical Translation Challenge"
       description := "Difficulty translating technical capabilities into business value"
       priority := Priority.high
       impact := 7
       businessConsequence := "Heavy discounting to win customers" }]
  recommendations :=
    [{ category := "Technical Translation"
       title := "Develop Buyer-Specific Messaging"
       description := "Create frameworks to translate technical features into business value propositions"
       priority := Priority.high
       expectedOutcome := "40% higher close rates through value-focused presentations"
       timeframe := "3-6 months"
       tools := ["Technical Translation Framework", "Value Proposition Builder", "ROI Calculator"] }]
  focusArea := "technical_translation"
  revenueOpportunity := 500000
  roiMultiplier := 3
  nextSteps :=
    ["Review detailed assessment results",
      "Access your 3 revenue intelligence tools",
      "Implement systematic improvement approach"]
  confidence := 75

/-- Dummy request passed to the fallback from the catch branch of
`parseFinalAssessmentResponse` (claudeAIService line 379). -/
def emptyFinalRequest : FinalAssessmentRequest where
  responses := []
  insights := []
  userInfo := ⟨"", "", "", ""⟩

/-- Optional-chain plus default for one raw skill field:
`parsed.skillLevels?.f || d`, clamped to [0, 10]. -/
def skillOr (sl : Option RawSkillLevels) (f : RawSkillLevels → Option Rat)
    (d : Rat) : Rat :=
  min 10 (max 0 (jsOrNum (sl.bind f) d))

/-- `ClaudeAIService.parseFinalAssessmentResponse` (claudeAIService lines
349-381): no required fields — every field is defaulted when absent or
falsy; `overallScore` is `Math.min(100, Math.max(0, parsed.overallScore ||
70))`, so a reported 0 is replaced by 70 before clamping; `roiMultiplier`
is floored at 2.0; `confidence` is clamped into [70, 95]. A reply without a
JSON object falls back to the baseline assessment. -/
def parseFinalAssessmentResponse (resp : Option RawFinalPayload) :
    AIAssessmentResponse :=
  match resp with
  | none => getFallbackAssessment emptyFinalRequest
  | some p =>
    { overallScore := min 100 (max 0 (jsOrNum p.overallScore 70))
      performanceLevel := jsOrStr p.performanceLevel "Competent"
      skillLevels :=
        { customerAnalysis := skillOr p.skillLevels (fun x => x.customerAnalysis) 7
          businessCommunication := skillOr p.skillLevels (fun x => x.businessCommunication) 6
          revenueStrategy := skillOr p.skillLevels (fun x => x.revenueStrategy) 8
          valueArticulation := skillOr p.skillLevels (fun x => x.valueArticulation) 7
          strategicThinking := skillOr p.skillLevels (fun x => x.strategicThinking) 6 }
      challenges := (p.challenges).getD []
      recommendations := (p.recommendations).getD []
      focusArea := jsOrStr p.focusArea "customer_analysis"
      revenueOpportunity := jsOrNum p.revenueOpportunity 500000
      roiMultiplier := max 2 (jsOrNum p.roiMultiplier 3)
      nextSteps := (p.nextSteps).getD ["Review assessment results", "Implement recommendations"]
      confidence := min 95 (max 70 (jsOrNum p.confidence 80)) }

/-- Oracle for one final-assessment run of the Claude AI service. -/
structure FinalEnv where
  configured : Bool
  callResult : Except JsError (Option RawFinalPayload)

/-- Body of the `try` block of `ClaudeAIService.generateFinalAssessment`
(claudeAIService lines 136-149). -/
def generateFinalAssessmentTry (env : FinalEnv) :
    Except JsError AIAssessmentResponse := do
  let payload ← env.callResult
  pure (parseFinalAssessmentResponse payload)

/-- `ClaudeAIService.generateFinalAssessment` (claudeAIService lines
131-154): unconfigured service and every exception of the try block fall
back to the baseline assessment, so the function always returns a value. -/
def generateFinalAssessment (env : FinalEnv) (request : FinalAssessmentRequest) :
    AIAssessmentResponse :=
  if env.configured then
    match generateFinalAssessmentTry env with
    | Except.ok a => a
    | Except.error _ => getFallbackAssessment request
  else getFallbackAssessment request

/-- Lead priority union of the skill assessment engine. -/
inductive LeadPriority where
  | high
  | medium
  | low
deriving DecidableEq, Repr

/-- Impact timeline union of the skill assessment engine. -/
inductive ImpactTimeline where
  | shortTerm
  | mediumTerm
  | longTerm
deriving DecidableEq, Repr

/-- Competency level record built by `generateFinalResults`
(skillAssessmentEngine.ts lines 101-105). -/
structure CompetencyLevel where
  level : String
  score : Rat
  description : String
deriving DecidableEq, Repr

/-- Final `AssessmentResults` of the skill assessment engine. -/
structure EngineResults where
  overallScore : Rat
  performanceLevel : CompetencyLevel
  skillLevels : SkillLevels
  challenges : List Challenge
  recommendations : List Recommendation
  focusArea : String
  revenueOpportunity : Rat
  roiMultiplier : Rat
  isHighPriority : Bool
  leadPriority : LeadPriority
  impactTimeline : ImpactTimeline
  nextSteps : List String
  confidence : Rat
deriving DecidableEq, Repr

/-- `SkillAssessmentEngine.determineLeadPriority` (skillAssessmentEngine.ts
lines 443-451). -/
def determineLeadPriority (cl : CompetencyLevel) (cs : List Challenge) :
    LeadPriority :=
  if cl.score < 40 ∨ cs.any (fun c => c.priority = Priority.critical) then
    LeadPriority.high
  else if cl.score < 60 ∨ cs.any (fun c => c.priority = Priority.high) then
    LeadPriority.medium
  else LeadPriority.low

/-- `SkillAssessmentEngine.determineImpactTimeline` (skillAssessmentEngine.ts
lines 456-464). -/
def determineImpactTimeline (cl : CompetencyLevel) : ImpactTimeline :=
  if cl.score < 40 then ImpactTimeline.longTerm
  else if cl.score < 70 then ImpactTimeline.mediumTerm
  else ImpactTimeline.shortTerm

/-- Template string of skillAssessmentEngine.ts line 104. -/
def describeLevel (lvl : String) (score : Rat) : String :=
  lvl ++ " level with " ++ toString score ++ "% competency score"

/-- Argument of `SkillAssessmentEngine.generateFinalResults`. -/
structure AssessmentData where
  sessionId : String
  responses : List AssessmentResponse
  insights : List Insight
  userInfo : UserInfo
deriving DecidableEq, Repr

/-- `SkillAssessmentEngine.generateFinalResults` (skillAssessmentEngine.ts
lines 83-135): delegates to the AI client and transforms the result; the
trailing `storeResults` persistence call swallows its own failures
(lines 504-547) and does not affect the returned value, so it is not
modelled. -/
def generateFinalResults (env : FinalEnv) (data : AssessmentData) :
    EngineResults :=
  let aiAssessment := generateFinalAssessment env
    { responses := data.responses
      insights := data.insights
      userInfo :=
        { company := data.userInfo.company
          productName := data.userInfo.productName
          businessModel := data.userInfo.businessModel
          productDescription := data.userInfo.productDescription } }
  let competencyLevel : CompetencyLevel :=
    { level := aiAssessment.performanceLevel
      score := aiAssessment.overallScore
      description := describeLevel aiAssessment.performanceLevel aiAssessment.overallScore }
  { overallScore := aiAssessment.overallScore
    performanceLevel := competencyLevel
    skillLevels := aiAssessment.skillLevels
    challenges := aiAssessment.challenges
    recommendations := aiAssessment.recommendations
    focusArea := aiAssessment.focusArea
    revenueOpportunity := aiAssessment.revenueOpportunity
    roiMultiplier := aiAssessment.roiMultiplier
    isHighPriority := decide (aiAssessment.overallScore < 60)
    leadPriority := determineLeadPriority competencyLevel aiAssessment.challenges
    impactTimeline := determineImpactTimeline competencyLevel
    nextSteps := aiAssessment.nextSteps
    confidence := aiAssessment.confidence }

/-- Session status union of `AssessmentSession`. -/
inductive SessionStatus where
  | inProgress
  | completed
  | insightGenerated
  | resultsGenerated
deriving DecidableEq, Repr

/-- `AssessmentSession` owned by `AssessmentServiceLite.activeSessions`. -/
structure Session where
  sessionId : String
  userInfo : UserInfo
  responses : List AssessmentResponse
  insights : List Insight
  status : SessionStatus
  startedAt : String
  completedAt : Option String
deriving DecidableEq, Repr

/-- `AssessmentServiceLite.startAssessment` (lines 579-615): a fresh session
with no responses, no insights, status `in_progress`. The generated
`session_...` identifier and `Date.now` are explicit parameters; the
`createAssessmentSession` persistence call is best-effort (spec section 6)
and does not affect the session value. -/
def startSession (userInfo : UserInfo) (sessionId : String) (now : String) :
    Session where
  sessionId := sessionId
  userInfo := userInfo
  responses := []
  insights := []
  status := SessionStatus.inProgress
  startedAt := now
  completedAt := none

/-- `session.responses.push(response)` (line 628). -/
def pushResponse (r : AssessmentResponse) (s : Session) : Session :=
  { s with responses := s.responses ++ [r] }

/-- True when the session already holds an insight for this batch number:
`session.insights.some(i => i.batchNumber === b)` (lines 655-659). -/
def hasBatch (s : Session) (b : Nat) : Bool :=
  s.insights.any (fun i => i.batchNumber = b)

/-- Trigger decision of `AssessmentServiceLite.checkForInsightGeneration`
(lines 651-662): which batch (with its question range) must be generated
for the current response count, if any. -/
def insightMilestone (s : Session) : Option (Nat × String) :=
  if s.responses.length = 4 ∧ ¬ hasBatch s 1 then some (1, "1-4")
  else if s.responses.length = 9 ∧ ¬ hasBatch s 2 then some (2, "5-9")
  else if s.responses.length = 12 ∧ ¬ hasBatch s 3 then some (3, "10-12")
  else none

/-- Batch slice of `AssessmentServiceLite.generateInsight` (lines 672-674):
`responses.slice(startIndex, endIndex)` with (0,4), (4,9), (9,12). -/
def batchSlice (s : Session) (b : Nat) : List AssessmentResponse :=
  let startIndex : Nat := if b = 1 then 0 else if b = 2 then 4 else 9
  let endIndex : Nat := if b = 1 then 4 else if b = 2 then 9 else 12
  (s.responses.drop startIndex).take (endIndex - startIndex)

/-- JS `s || d` on a plain string (used for the `userInfo?.field ||
default` expressions of realTimeInsightEngine). -/
def orDefault (s d : String) : String :=
  if s.isEmpty then d else s

/-- `RealTimeInsightEngine.analyzeBatch1/2/3` (realTimeInsightEngine.ts
lines 61-169), unified over the batch number: call the Claude AI service
and wrap the returned fields into an `Insight` record; `storeInsight` is a
best-effort persistence call that swallows its own failures (lines
389-406) and is not modelled. Batch 1 passes no previous insights. -/
def analyzeBatch (env : InsightEnv) (now : String) (b : Nat) (qr : String)
    (batchResponses : List AssessmentResponse) (prev : Option (List Insight))
    (sessionId : String) (u : UserInfo) : Except JsError Insight := do
  let ai ← generateInsight env
    { responses := batchResponses
      batchNumber := b
      previousInsights := prev
      userInfo :=
        { company := orDefault u.company "Unknown Company"
          productName := orDefault u.productName "Unknown Product"
          businessModel := orDefault u.businessModel "Unknown Model" } }
  pure
    { id := "insight_" ++ sessionId ++ "_" ++ toString b
      sessionId := sessionId
      batchNumber := b
      questionRange := qr
      insight := ai.insight
      challengeIdentified := ai.challengeIdentified
      businessImpact := ai.businessImpact
      confidence := ai.confidence
      generatedAt := now }

/-- `AssessmentServiceLite.generateInsight` (lines 667-711): slice the
responses for this batch, delegate to the real-time insight engine, append
the insight, and advance the status; the surrounding try/catch leaves the
session unchanged if the engine were ever to throw. The
`updateAssessmentStatus` persistence call is best-effort (spec section 6). -/
def generateInsightFor (env : InsightEnv) (now : String) (s : Session)
    (b : Nat) (qr : String) : Session :=
  let batchResponses := batchSlice s b
  let prev := if b = 1 then none else some s.insights
  match analyzeBatch env now b qr batchResponses prev s.sessionId s.userInfo with
  | Except.error _ => s
  | Except.ok insight =>
    { s with insights := s.insights ++ [insight],
             status := SessionStatus.insightGenerated }

/-- `AssessmentServiceLite.checkForInsightGeneration` (lines 651-662). -/
def checkForInsightGeneration (env : InsightEnv) (now : String) (s : Session) :
    Session :=
  match insightMilestone s with
  | none => s
  | some (b, qr) => generateInsightFor env now s b qr

/-- Modelled from the spec: `supabaseAssessmentService.storeAssessmentResponse`
and `createAssessmentSession` are called by `addResponse` and
`startAssessment` but are not defined in the sources; spec section 6
specifies the persistence collaborator as a best-effort sink whose failures
are logged and never thrown back, so these calls do not affect the session
value and `addResponse` proceeds to the insight check. Under that contract,
`AssessmentServiceLite.addResponse` (lines 620-646) appends the response
and runs the insight check. -/
def addResponse (env : InsightEnv) (now : String) (r : AssessmentResponse)
    (s : Session) : Session :=
  checkForInsightGeneration env now (pushResponse r s)

/-- `AssessmentServiceLite.completeAssessment` (lines 716-754): with fewer
than 12 responses the call returns an error and leaves the session alone;
otherwise the skill assessment engine produces the results and the session
is marked completed. The `updateAssessmentStatus` persistence call is
best-effort (spec section 6). -/
def completeAssessment (env : FinalEnv) (now : String) (s : Session) :
    Session × Option EngineResults :=
  if s.responses.length < 12 then (s, none)
  else
    let results := generateFinalResults env
      { sessionId := s.sessionId
        responses := s.responses
        insights := s.insights
        userInfo := s.userInfo }
    ({ s with status := SessionStatus.completed, completedAt := some now },
      some results)

/-- Sessions reachable from `startAssessment` through any sequence of
`addResponse` and `completeAssessment` operations (each call may observe a
different AI oracle). -/
inductive Reachable : Session → Prop where
  | start (userInfo : UserInfo) (sessionId now : String) :
      Reachable (startSession userInfo sessionId now)
  | add (env : InsightEnv) (now : String) (r : AssessmentResponse)
      {s : Session} (hs : Reachable s) : Reachable (addResponse env now r s)
  | complete (env : FinalEnv) (now : String) {s : Session}
      (hs : Reachable s) : Reachable (completeAssessment env now s).1

/-- Invariant of reachable sessions: every insight carries a batch number in
1..3, batch numbers are pairwise distinct, and an insight for batch 1/2/3
exists only once the 4th/9th/12th response has been recorded. -/
def GoodBatches (s : Session) : Prop :=
  (∀ i ∈ s.insights, i.batchNumber = 1 ∨ i.batchNumber = 2 ∨ i.batchNumber = 3)
  ∧ (s.insights.map Insight.batchNumber).Nodup
  ∧ (∀ i ∈ s.insights,
      (i.batchNumber = 1 → 4 ≤ s.responses.length)
      ∧ (i.batchNumber = 2 → 9 ≤ s.responses.length)
      ∧ (i.batchNumber = 3 → 12 ≤ s.responses.length))

/-- Sample user for concrete runs. -/
def demoUser : UserInfo :=
  ⟨"founder@acme.example", "Acme", "Widget", "A widget analytics tool", "B2B SaaS"⟩

/-- Sample scale-type response for question `n`. -/
def demoResponse (n : Nat) : AssessmentResponse :=
  ⟨"q" ++ toString n, "Question " ++ toString n, JsVal.num 3,
    ResponseType.scale, (n : Rat)⟩

/-- Sample retryable (external-service) error. -/
def demoExtErr : JsError := ⟨ErrKind.externalService, "AI endpoint unreachable"⟩

/-- Sample non-retryable validation error. -/
def demoValErr : JsError := ⟨ErrKind.validation, "bad request"⟩

/-- Operation that fails with a retryable error on every invocation. -/
def demoFailOp : Nat → Except JsError Unit := fun _ => Except.error demoExtErr

/-- Operation that fails with a validation error on every invocation. -/
def demoValOp : Nat → Except JsError Unit := fun _ => Except.error demoValErr

/-- Small breaker options for concrete runs: failureThreshold 2,
recoveryTimeout 10, successThreshold 2. -/
def cbDemoOpts : CBOptions := ⟨2, 10, 2⟩

/-- Insight oracle: configured service whose API call always throws. -/
def demoInsightEnvFail : InsightEnv := ⟨true, Except.error demoExtErr, 0⟩

/-- Final-assessment oracle: configured service whose API call always
throws. -/
def demoFinalEnvFail : FinalEnv := ⟨true, Except.error demoExtErr⟩

/-- Well-formed raw insight payload reporting confidence 65. -/
def demoRawInsight65 : RawInsightPayload :=
  ⟨some "Buyer Conversations Challenge", some "Focus more on buyer outcomes.",
    some "Lost competitive deals", some 65, some "Response pattern analysis"⟩

/-- Well-formed raw insight payload reporting confidence 80. -/
def demoRawInsight80 : RawInsightPayload :=
  ⟨some "Technical Translation Challenge", some "Translate features into value.",
    some "Discount pressure", some 80, some "Consistent signals"⟩

/-- Validated value of `demoRawInsight80`. -/
def demoParsed80 : AIInsightResponse :=
  ⟨"Technical Translation Challenge", "Translate features into value.",
    "Discount pressure", 80, "Consistent signals"⟩

/-- Insight oracle replying with `demoRawInsight65`. -/
def demoInsightEnv65 : InsightEnv := ⟨true, Except.ok (some demoRawInsight65), 0⟩

/-- Batch-2 insight request. -/
def demoBatch2Request : AssessmentInsightRequest :=
  ⟨[], 2, some [], ⟨"Acme", "Widget", "B2B SaaS"⟩⟩

/-- Raw final payload reporting a negative overall score. -/
def demoRawFinalNeg : RawFinalPayload :=
  ⟨some (-5), none, none, none, none, none, none, none, none, none⟩

/-- Raw final payload reporting overall score 0. -/
def demoRawFinalZero : RawFinalPayload :=
  ⟨some 0, none, none, none, none, none, none, none, none, none⟩

/-- Final-assessment oracle replying with `demoRawFinalNeg`. -/
def demoFinalEnvNeg : FinalEnv := ⟨true, Except.ok (some demoRawFinalNeg)⟩

/-- Final-assessment oracle replying with `demoRawFinalZero`. -/
def demoFinalEnvZero : FinalEnv := ⟨true, Except.ok (some demoRawFinalZero)⟩

/-- Freshly started sample session. -/
def demoSession0 : Session := startSession demoUser "sess-demo-1" "t0"

/-- Sample session after three recorded responses (AI unreachable). -/
def demoSession3 : Session :=
  addResponse demoInsightEnvFail "t3" (demoResponse 3)
    (addResponse demoInsightEnvFail "t2" (demoResponse 2)
      (addResponse demoInsightEnvFail "t1" (demoResponse 1) demoSession0))

/-- Sample session holding 12 responses, ready for completion. -/
def demoSession12 : Session where
  sessionId := "sess-demo-2"
  userInfo := demoUser
  responses := (List.range 12).map demoResponse
  insights := []
  status := SessionStatus.inProgress
  startedAt := "t0"
  completedAt := none

/-- Closed form of the retry loop when every invocation fails with a
retryable error: it runs through all its fuel, accumulating one backoff
delay per retry, and ends with the error of the last attempt. -/
theorem withRetryGo_allFail {α : Type} (op : Nat → Except JsError α)
    (errAt : Nat → JsError)
    (hfail : ∀ n, op n = Except.error (errAt n))
    (hr : ∀ n, nonRetryable (errAt n) = false) (d m : Rat) :
    ∀ fuel a ds, 1 ≤ fuel →
      withRetryGo op d m a fuel ds =
        ⟨Except.error (errAt (a + fuel - 1)), a + fuel,
          ds ++ (List.range (fuel - 1)).map (fun i => d * m ^ (a + i))⟩ := by
  intro fuel
  induction fuel with
  | zero => intro a ds h; exact absurd h (by omega)
  | succ f ih =>
    intro a ds _
    cases f with
    | zero =>
      simp [withRetryGo, hfail a]
    | succ g =>
      have hstep : withRetryGo op d m a (g + 2) ds =
          withRetryGo op d m (a + 1) (g + 1) (ds ++ [d * m ^ a]) := by
        simp [withRetryGo, hfail a, hr a]
      have hrec := ih (a + 1) (ds ++ [d * m ^ a]) (by omega)
      rw [hstep, hrec]
      have hidx : a + 1 + (g + 1) - 1 = a + (g + 1 + 1) - 1 := by omega
      have hinv : a + 1 + (g + 1) = a + (g + 1 + 1) := by omega
      have hlist : (ds ++ [d * m ^ a]) ++
          (List.range g).map (fun i => d * m ^ (a + 1 + i)) =
          ds ++ (List.range (g + 1)).map (fun i => d * m ^ (a + i)) := by
        rw [List.append_assoc]
        congr 1
        rw [List.range_succ_eq_map, List.map_cons, List.map_map]
        have harg : ∀ i, a + 1 + i = a + Nat.succ i := by intro i; omega
        simp only [Function.comp, Nat.add_zero, harg]
        rfl
      rw [hidx, hinv]
      simp only [Nat.add_sub_cancel]
      rw [hlist]

/-- C7: for every operation failing each invocation with a retryable
(external-service kind) error, `withRetry` invokes the operation exactly
`maxRetries` times, the delay slept before retry `n` (0-indexed) is
`baseDelay * backoffMultiplier ^ n` — strictly increasing whenever the base
delay is positive and the multiplier exceeds 1 — and on exhausting the
retries the error of the last attempt is re-raised unchanged. -/
theorem withRetry_retryable_exhaustion {α : Type} (op : Nat → Except JsError α)
    (errAt : Nat → JsError) (maxRetries : Nat) (d m : Rat)
    (hfail : ∀ n, op n = Except.error (errAt n))
    (hr : ∀ n, nonRetryable (errAt n) = false)
    (hmr : 1 ≤ maxRetries) :
    (withRetry op maxRetries d m).invocations = maxRetries
  ∧ (withRetry op maxRetries d m).delays =
      (List.range (maxRetries - 1)).map (fun n => d * m ^ n)
  ∧ (withRetry op maxRetries d m).result = Except.error (errAt (maxRetries - 1))
  ∧ (0 < d → 1 < m →
      (withRetry op maxRetries d m).delays.Pairwise (fun x y => x < y)) := by
  have h := withRetryGo_allFail op errAt hfail hr d m maxRetries 0 [] hmr
  unfold withRetry
  rw [h]
  have hdl : (List.range (maxRetries - 1)).map (fun i => d * m ^ (0 + i)) =
      (List.range (maxRetries - 1)).map (fun n => d * m ^ n) := by
    simp
  refine ⟨by simp, by simp [hdl], by simp, ?_⟩
  intro hd hm1
  simp only [List.nil_append, hdl]
  refine List.Pairwise.map _ ?_ (List.pairwise_lt_range _)
  intro a b hab
  have hpow : m ^ a < m ^ b := pow_lt_pow_right₀ hm1 hab
  exact mul_lt_mul_of_pos_left hpow hd

/-- Witness for C7 at a concrete always-failing operation. -/
theorem withRetry_retryable_exhaustion_witness :
    (withRetry demoFailOp 3 100 2).invocations = 3
  ∧ (withRetry demoFailOp 3 100 2).delays =
      (List.range 2).map (fun n => (100 : Rat) * 2 ^ n)
  ∧ (withRetry demoFailOp 3 100 2).result = Except.error demoExtErr
  ∧ (0 < (100 : Rat) → 1 < (2 : Rat) →
      (withRetry demoFailOp 3 100 2).delays.Pairwise (fun x y => x < y)) :=
  withRetry_retryable_exhaustion demoFailOp (fun _ => demoExtErr) 3 100 2
    (fun _ => rfl) (fun _ => rfl) (by omega)

/-- C7 counterexample: with backoffMultiplier 1 (and three retries of an
always-failing retryable operation) the slept delays are [100, 100] —
constant, not strictly increasing — so the claimed strict increase does not
hold for every parameter choice. -/
theorem withRetry_delays_constant_counterexample :
    (withRetry demoFailOp 3 100 1).delays = [100, 100]
  ∧ ¬ (withRetry demoFailOp 3 100 1).delays.Pairwise (fun x y => x < y) := by
  have hd : (withRetry demoFailOp 3 100 1).delays = [100, 100] := by
    have h := withRetryGo_allFail demoFailOp (fun _ => demoExtErr)
      (fun _ => rfl) (fun _ => rfl) 100 1 3 0 [] (by omega)
    unfold withRetry
    rw [h]
    simp [List.range_succ]
  refine ⟨hd, ?_⟩
  intro hp
  rw [hd] at hp
  have := List.rel_of_pairwise_cons hp (List.mem_singleton.mpr rfl)
  exact absurd this (by norm_num)

/-- C8: a Validation, Authentication, or Authorization error on the first
invocation stops `withRetry` immediately: the operation runs exactly once,
no backoff delay is slept, and the same error is re-raised unchanged. -/
theorem withRetry_nonretryable_once {α : Type} (op : Nat → Except JsError α)
    (e : JsError) (maxRetries : Nat) (d m : Rat)
    (h0 : op 0 = Except.error e) (hnr : nonRetryable e = true)
    (hmr : 1 ≤ maxRetries) :
    withRetry op maxRetries d m = ⟨Except.error e, 1, []⟩ := by
  obtain _ | n := maxRetries
  · exact absurd hmr (by omega)
  obtain _ | k := n
  · unfold withRetry
    simp [withRetryGo, h0]
  · unfold withRetry
    simp [withRetryGo, h0, hnr]

/-- Witness for C8 at a concrete validation-failing operation. -/
theorem withRetry_nonretryable_once_witness :
    withRetry demoValOp 3 100 2 = ⟨Except.error demoValErr, 1, []⟩ :=
  withRetry_nonretryable_once demoValOp demoValErr 3 100 2 rfl rfl (by omega)

/-- While open and inside the recovery window the breaker rejects without
touching its state or the operation. -/
theorem cbExecute_open_rejects (opts : CBOptions) (st : CBState) (now : Int)
    (ob : Bool) (h1 : st.mode = CBMode.opened)
    (h2 : now - st.lastFailureTime ≤ opts.recoveryTimeout) :
    cbExecute opts now ob st = (st, CBResult.rejected) := by
  unfold cbExecute
  rw [if_pos ⟨h1, not_lt.mpr h2⟩]

/-- Once the recovery window has elapsed, the next call really invokes the
operation: the outcome is success or failure, never a rejection. -/
theorem cbExecute_open_probe (opts : CBOptions) (st : CBState) (now : Int)
    (ob : Bool) (_h1 : st.mode = CBMode.opened)
    (h2 : opts.recoveryTimeout < now - st.lastFailureTime) :
    (cbExecute opts now ob st).2 =
      (if ob then CBResult.succeeded else CBResult.failed) := by
  unfold cbExecute
  rw [if_neg (fun hc => hc.2 h2)]
  cases ob <;> simp [apply_ite]

/-- A failure observed while not open, below the threshold: the count and
time are recorded, the mode is kept. -/
theorem cbExecute_fail_below (opts : CBOptions) (st : CBState) (now : Int)
    (h1 : st.mode ≠ CBMode.opened)
    (h2 : st.failureCount + 1 < opts.failureThreshold) :
    (cbExecute opts now false st).1 =
      { st with failureCount := st.failureCount + 1, lastFailureTime := now } := by
  have hno : ¬ opts.failureThreshold ≤ st.failureCount + 1 := by omega
  simp [cbExecute, h1, hno]

/-- A failure observed while not open, reaching the threshold: the breaker
opens. -/
theorem cbExecute_fail_open (opts : CBOptions) (st : CBState) (now : Int)
    (h1 : st.mode ≠ CBMode.opened)
    (h2 : opts.failureThreshold ≤ st.failureCount + 1) :
    (cbExecute opts now false st).1 =
      { st with
          mode := CBMode.opened
          failureCount := st.failureCount + 1
          lastFailureTime := now } := by
  simp [cbExecute, h1, h2]

/-- A success observed while not open that does not close the breaker:
failure count resets, success count grows, mode is kept. -/
theorem cbExecute_success_stay (opts : CBOptions) (st : CBState) (now : Int)
    (h1 : st.mode ≠ CBMode.opened)
    (h2 : ¬(st.mode = CBMode.halfOpen ∧ opts.successThreshold ≤ st.successCount + 1)) :
    (cbExecute opts now true st).1 =
      { st with failureCount := 0, successCount := st.successCount + 1 } := by
  simp only [cbExecute]
  rw [if_neg (fun hc => h1 hc.1), if_neg h1]
  simp only [if_true]
  rw [if_neg (by simpa using h2)]

/-- The success that brings a half-open breaker to its success threshold
closes it. -/
theorem cbExecute_success_close (opts : CBOptions) (st : CBState) (now : Int)
    (h1 : st.mode = CBMode.halfOpen)
    (h2 : opts.successThreshold ≤ st.successCount + 1) :
    (cbExecute opts now true st).1 =
      { st with
          mode := CBMode.closed
          failureCount := 0
          successCount := st.successCount + 1 } := by
  simp [cbExecute, h1, h2]

/-- Unfolding one call of a breaker run. -/
theorem cbRun_cons (opts : CBOptions) (st : CBState) (c : Int × Bool)
    (cs : List (Int × Bool)) :
    cbRun opts st (c :: cs) = cbRun opts (cbExecute opts c.1 c.2 st).1 cs := rfl

/-- Consecutive failures from a closed breaker: as soon as the failure
count reaches the threshold the breaker is open and remembers the time of
the last failure. -/
theorem cbRun_consecutive_failures (opts : CBOptions) :
    ∀ (ts : List Int) (tlast : Int) (st : CBState), st.mode = CBMode.closed →
      st.failureCount + ts.length + 1 = opts.failureThreshold →
      (cbRun opts st ((ts ++ [tlast]).map (fun t => (t, false)))).mode = CBMode.opened
      ∧ (cbRun opts st ((ts ++ [tlast]).map (fun t => (t, false)))).lastFailureTime = tlast := by
  intro ts
  induction ts with
  | nil =>
    intro tlast st h1 h2
    have hstep := cbExecute_fail_open opts st tlast (by simp [h1])
      (by simp only [List.length_nil] at h2; omega)
    simp only [List.nil_append, List.map_cons, List.map_nil, cbRun_cons]
    rw [hstep]
    exact ⟨rfl, rfl⟩
  | cons t ts ih =>
    intro tlast st h1 h2
    have hbelow := cbExecute_fail_below opts st t (by simp [h1])
      (by simp only [List.length_cons] at h2; omega)
    simp only [List.cons_append, List.map_cons, cbRun_cons]
    rw [hbelow]
    exact ih tlast _ (by simp [h1])
      (by simp only [List.length_cons] at h2; simp; omega)

/-- Successes in half-open: the one that reaches the success threshold
closes the breaker. -/
theorem cbRun_halfOpen_successes (opts : CBOptions) :
    ∀ (ts : List Int) (tlast : Int) (st : CBState), st.mode = CBMode.halfOpen →
      st.successCount + ts.length + 1 = opts.successThreshold →
      (cbRun opts st ((ts ++ [tlast]).map (fun t => (t, true)))).mode = CBMode.closed := by
  intro ts
  induction ts with
  | nil =>
    intro tlast st h1 h2
    have hstep := cbExecute_success_close opts st tlast h1
      (by simp only [List.length_nil] at h2; omega)
    simp only [List.nil_append, List.map_cons, List.map_nil, cbRun_cons]
    rw [hstep]
    rfl
  | cons t ts ih =>
    intro tlast st h1 h2
    have hstay := cbExecute_success_stay opts st t (by simp [h1])
      (by
        simp only [List.length_cons] at h2
        intro hc
        omega)
    simp only [List.cons_append, List.map_cons, cbRun_cons]
    rw [hstay]
    exact ih tlast _ (by simp [h1])
      (by simp only [List.length_cons] at h2; simp; omega)

/-- C5 counterexample: with failureThreshold 2, recoveryTimeout 10 and
successThreshold 2, two failures open the breaker; after the recovery
window one successful probe in half-open resets `failureCount` to 0, and
the very next failure leaves the breaker half-open — it is not reopened,
refuting "any single failure while half-open immediately reopens the
circuit". -/
theorem circuitBreaker_halfOpen_failure_counterexample :
    (cbRun cbDemoOpts cbInit [(0, false), (1, false), (20, true)]).mode = CBMode.halfOpen
  ∧ (cbRun cbDemoOpts cbInit
      [(0, false), (1, false), (20, true), (21, false)]).mode ≠ CBMode.opened := by
  decide

/-- C5 (amended): while open and inside the recovery window every call is
rejected without invoking the operation, and after the window the next
call proceeds; `failureThreshold` consecutive failures from closed open the
breaker and record the last failure time; reaching `successThreshold`
successes in half-open closes it; a failure in half-open reopens the
breaker only when it brings `failureCount` back to `failureThreshold` — in
particular the first probe failure after entering half-open does, but after
a success in half-open has reset `failureCount` a single failure leaves the
breaker half-open. -/
theorem circuitBreaker_behaviour (opts : CBOptions) :
    (∀ st now ob, st.mode = CBMode.opened →
        now - st.lastFailureTime ≤ opts.recoveryTimeout →
        cbExecute opts now ob st = (st, CBResult.rejected))
  ∧ (∀ st now ob, st.mode = CBMode.opened →
        opts.recoveryTimeout < now - st.lastFailureTime →
        (cbExecute opts now ob st).2 =
          (if ob then CBResult.succeeded else CBResult.failed))
  ∧ (∀ (ts : List Int) tlast st, st.mode = CBMode.closed →
        st.failureCount + ts.length + 1 = opts.failureThreshold →
        (cbRun opts st ((ts ++ [tlast]).map (fun t => (t, false)))).mode = CBMode.opened
        ∧ (cbRun opts st ((ts ++ [tlast]).map (fun t => (t, false)))).lastFailureTime = tlast)
  ∧ (∀ (ts : List Int) tlast st, st.mode = CBMode.halfOpen →
        st.successCount + ts.length + 1 = opts.successThreshold →
        (cbRun opts st ((ts ++ [tlast]).map (fun t => (t, true)))).mode = CBMode.closed)
  ∧ (∀ st now, st.mode = CBMode.halfOpen →
        opts.failureThreshold ≤ st.failureCount + 1 →
        (cbExecute opts now false st).1.mode = CBMode.opened)
  ∧ (∀ st now, st.mode = CBMode.halfOpen →
        st.failureCount + 1 < opts.failureThreshold →
        (cbExecute opts now false st).1.mode = CBMode.halfOpen) := by
  refine ⟨fun st now ob => cbExecute_open_rejects opts st now ob,
    fun st now ob => cbExecute_open_probe opts st now ob,
    cbRun_consecutive_failures opts, cbRun_halfOpen_successes opts, ?_, ?_⟩
  · intro st now h1 h2
    rw [cbExecute_fail_open opts st now (by simp [h1]) h2]
  · intro st now h1 h2
    rw [cbExecute_fail_below opts st now (by simp [h1]) h2]
    exact h1

/-- Witness for C5 (amended) at concrete breaker states. -/
theorem circuitBreaker_behaviour_witness :
    cbExecute cbDemoOpts 5 true ⟨CBMode.opened, 2, 0, 0⟩ =
      (⟨CBMode.opened, 2, 0, 0⟩, CBResult.rejected)
  ∧ (cbExecute cbDemoOpts 20 true ⟨CBMode.opened, 2, 1, 0⟩).2 =
      (if true then CBResult.succeeded else CBResult.failed)
  ∧ ((cbRun cbDemoOpts cbInit ((([0] : List Int) ++ [1]).map (fun t => (t, false)))).mode = CBMode.opened
      ∧ (cbRun cbDemoOpts cbInit ((([0] : List Int) ++ [1]).map (fun t => (t, false)))).lastFailureTime = 1)
  ∧ (cbRun cbDemoOpts ⟨CBMode.halfOpen, 5, 1, 0⟩
      ((([20] : List Int) ++ [21]).map (fun t => (t, true)))).mode = CBMode.closed
  ∧ (cbExecute cbDemoOpts 21 false ⟨CBMode.halfOpen, 5, 1, 0⟩).1.mode = CBMode.opened
  ∧ (cbExecute cbDemoOpts 21 false ⟨CBMode.halfOpen, 0, 1, 1⟩).1.mode = CBMode.halfOpen := by
  obtain ⟨hA, hB, hC, hD, hE, hF⟩ := circuitBreaker_behaviour cbDemoOpts
  exact ⟨hA _ 5 true rfl (by decide), hB _ 20 true rfl (by decide),
    hC [0] 1 cbInit rfl (by decide), hD [20] 21 _ rfl (by decide),
    hE _ 21 rfl (by decide), hF _ 21 rfl (by decide)⟩

/-- The Claude insight pipeline always yields a value, whatever the oracle
does. -/
theorem generateInsight_isOk (env : InsightEnv) (req : AssessmentInsightRequest) :
    ∃ insight, generateInsight env req = Except.ok insight := by
  unfold generateInsight generateInsightTry
  cases hc : env.configured <;> cases hcall : env.callResult <;>
    simp [hc, hcall]

/-- C1: insight generation never propagates a failure: for every oracle
(configured or not, call failing or not) and every request it completes
with an Insight value, returning the deterministic fallback when the
service is unconfigured or when the call throws. -/
theorem generateInsight_never_fails (env : InsightEnv)
    (req : AssessmentInsightRequest) :
    (∃ insight, generateInsight env req = Except.ok insight)
  ∧ (env.configured = false →
      generateInsight env req = Except.ok (getFallbackInsight req env.rand))
  ∧ (∀ e, env.callResult = Except.error e →
      generateInsight env req = Except.ok (getFallbackInsight req env.rand)) := by
  refine ⟨generateInsight_isOk env req, ?_, ?_⟩
  · intro hc
    simp [generateInsight, hc]
  · intro e hcall
    unfold generateInsight generateInsightTry
    cases hc : env.configured <;> simp [hc, hcall]

/-- Witness for C1: with the configured-but-unreachable oracle the pipeline
returns the fallback insight. -/
theorem generateInsight_never_fails_witness :
    (∃ insight, generateInsight demoInsightEnvFail demoBatch2Request =
      Except.ok insight)
  ∧ generateInsight demoInsightEnvFail demoBatch2Request =
      Except.ok (getFallbackInsight demoBatch2Request demoInsightEnvFail.rand) :=
  ⟨(generateInsight_never_fails demoInsightEnvFail demoBatch2Request).1,
    (generateInsight_never_fails demoInsightEnvFail demoBatch2Request).2.2
      demoExtErr rfl⟩

/-- C9 counterexample: two fallback invocations with identical input but
different `Math.random` draws disagree on `challengeIdentified`, so the
fallback is not deterministic in that field. -/
theorem fallbackInsight_random_counterexample :
    (getFallbackInsight emptyInsightRequest 0).challengeIdentified ≠
      (getFallbackInsight emptyInsightRequest 1).challengeIdentified := by
  decide

/-- C9 (amended): the fallback insight is deterministic in every field
except `challengeIdentified`: for identical input the insight text,
business impact, confidence (always 70) and reasoning coincide across
invocations, while the challenge name is drawn per invocation from the
fixed three-element pool and may differ. -/
theorem fallbackInsight_fixed_except_challenge
    (req : AssessmentInsightRequest) (r1 r2 : Fin 3) :
    (getFallbackInsight req r1).insight = (getFallbackInsight req r2).insight
  ∧ (getFallbackInsight req r1).businessImpact =
      (getFallbackInsight req r2).businessImpact
  ∧ (getFallbackInsight req r1).confidence = 70
  ∧ (getFallbackInsight req r1).reasoning = (getFallbackInsight req r2).reasoning
  ∧ (getFallbackInsight req r1).challengeIdentified ∈ fallbackChallenges := by
  refine ⟨rfl, rfl, rfl, rfl, ?_⟩
  exact List.get_mem _ _ _

/-- C6 counterexample: the claudeAIService parser used by the insight
pipeline clamps into [60, 95] regardless of the batch number: a
successfully parsed payload with confidence 65 answered to a batch-2
request keeps confidence 65 instead of the claimed clamping into
[70, 95]. -/
theorem insight_confidence_batch_counterexample :
    demoBatch2Request.batchNumber = 2
  ∧ Except.map AIInsightResponse.confidence
      (generateInsight demoInsightEnv65 demoBatch2Request) = Except.ok 65
  ∧ ¬ (70 : Rat) ≤ 65 := by
  refine ⟨rfl, rfl, by norm_num⟩

/-- C6 (amended): each insight parser clamps confidence into a fixed range
independent of the request's batch number — `parseInsightResponse`
(claudeAIService) into [60, 95] and `parseAIResponse`
(realTimeInsightService) into [70, 95]; an in-range value passes through
unchanged and out-of-range values are clamped without raising an error. -/
theorem insight_confidence_fixed_ranges (rand : Fin 3) (p : RawInsightPayload) :
    (60 ≤ (parseInsightResponse rand (some p)).confidence
      ∧ (parseInsightResponse rand (some p)).confidence ≤ 95)
  ∧ (∀ c, truthyStr p.challengeIdentified = true → truthyStr p.insight = true →
      p.confidence = some c → 60 ≤ c → c ≤ 95 →
      (parseInsightResponse rand (some p)).confidence = c)
  ∧ (∀ i, parseAIResponse (some p) = Except.ok i →
      70 ≤ i.confidence ∧ i.confidence ≤ 95)
  ∧ (∀ i c, parseAIResponse (some p) = Except.ok i → p.confidence = some c →
      70 ≤ c → c ≤ 95 → i.confidence = c) := by
  refine ⟨?_, ?_, ?_, ?_⟩
  · simp only [parseInsightResponse]
    split
    · exact ⟨le_min (by norm_num) (le_max_left _ _), min_le_left _ _⟩
    · exact ⟨by norm_num [getFallbackInsight], by norm_num [getFallbackInsight]⟩
  · intro c h1 h2 hc h60 h95
    have hne : c ≠ 0 := by
      intro h0
      rw [h0] at h60
      norm_num at h60
    simp only [parseInsightResponse, h1, h2, and_self, if_true, hc, jsOrNum,
      if_neg hne]
    rw [max_eq_right h60, min_eq_right h95]
  · intro i hok
    simp only [parseAIResponse] at hok
    split at hok
    · cases hp : p.confidence with
      | none => rw [hp] at hok; cases hok
      | some c =>
        rw [hp] at hok
        cases hok
        constructor
        · by_cases hlo : c < 70 ∨ 95 < c
          · simp only [if_pos hlo]
            exact le_max_left _ _
          · simp only [if_neg hlo]
            push_neg at hlo
            exact hlo.1
        · by_cases hlo : c < 70 ∨ 95 < c
          · simp only [if_pos hlo]
            exact max_le (by norm_num) (min_le_left _ _)
          · simp only [if_neg hlo]
            push_neg at hlo
            exact hlo.2
    · cases hok
  · intro i c hok hc h70 h95
    simp only [parseAIResponse] at hok
    split at hok
    · rw [hc] at hok
      cases hok
      have hnot : ¬ (c < 70 ∨ 95 < c) := by
        push_neg
        exact ⟨h70, h95⟩
      simp only [if_neg hnot]
    · cases hok

/-- Witness for C6 (amended) at the confidence-80 payload. -/
theorem insight_confidence_fixed_ranges_witness :
    (60 ≤ (parseInsightResponse 0 (some demoRawInsight80)).confidence
      ∧ (parseInsightResponse 0 (some demoRawInsight80)).confidence ≤ 95)
  ∧ (parseInsightResponse 0 (some demoRawInsight80)).confidence = 80
  ∧ (70 ≤ demoParsed80.confidence ∧ demoParsed80.confidence ≤ 95)
  ∧ demoParsed80.confidence = 80 := by
  have h := insight_confidence_fixed_ranges 0 demoRawInsight80
  exact ⟨h.1,
    h.2.1 80 (by decide) (by decide) rfl (by norm_num) (by norm_num),
    h.2.2.1 demoParsed80 rfl,
    h.2.2.2 demoParsed80 80 rfl rfl (by norm_num) (by norm_num)⟩

/-- C10 counterexample: a successfully parsed payload reporting
overallScore -5 is clamped up to 0 by `Math.max(0, ...)`, so the AI path
can yield an overall score of 0 — refuting "the AI path never yields an
overall score of 0". -/
theorem finalScore_zero_counterexample :
    (generateFinalAssessment demoFinalEnvNeg emptyFinalRequest).overallScore = 0 := by
  decide

/-- C10 (amended): a reported overallScore of exactly 0 is replaced by the
default 70 before clamping, and no nonnegative reported score yields 0;
only a negative reported score (clamped up to 0) can make the AI path
yield an overall score of 0. -/
theorem finalScore_zero_replaced (env : FinalEnv) (req : FinalAssessmentRequest)
    (p : RawFinalPayload) (hc : env.configured = true)
    (hcall : env.callResult = Except.ok (some p)) :
    (p.overallScore = some 0 →
      (generateFinalAssessment env req).overallScore = 70)
  ∧ (∀ v, p.overallScore = some v → 0 ≤ v →
      (generateFinalAssessment env req).overallScore ≠ 0) := by
  have hparse : generateFinalAssessment env req =
      parseFinalAssessmentResponse (some p) := by
    simp [generateFinalAssessment, generateFinalAssessmentTry, hc, hcall]
  rw [hparse]
  constructor
  · intro h0
    simp [parseFinalAssessmentResponse, jsOrNum, h0]
    norm_num
  · intro v hv hv0
    simp only [parseFinalAssessmentResponse, hv, jsOrNum]
    have hpos : (0 : Rat) < min 100 (max 0 (if v = 0 then 70 else v)) := by
      by_cases h0 : v = 0
      · rw [if_pos h0]
        norm_num
      · rw [if_neg h0]
        have hvpos : 0 < v := lt_of_le_of_ne hv0 (Ne.symm h0)
        exact lt_min (by norm_num) (lt_max_of_lt_right hvpos)
    exact ne_of_gt hpos

/-- Witness for C10 (amended) at the zero-score payload. -/
theorem finalScore_zero_replaced_witness :
    ((generateFinalAssessment demoFinalEnvZero emptyFinalRequest).overallScore = 70)
  ∧ ((generateFinalAssessment demoFinalEnvZero emptyFinalRequest).overallScore ≠ 0) := by
  have h := finalScore_zero_replaced demoFinalEnvZero emptyFinalRequest
    demoRawFinalZero rfl rfl
  exact ⟨h.1 rfl, h.2 0 rfl (by norm_num)⟩

/-- The final-assessment client returns the baseline fallback whenever the
call throws (configured or not). -/
theorem generateFinalAssessment_fallback (env : FinalEnv)
    (req : FinalAssessmentRequest) (e : JsError)
    (hf : env.callResult = Except.error e) :
    generateFinalAssessment env req = getFallbackAssessment req := by
  unfold generateFinalAssessment generateFinalAssessmentTry
  cases hc : env.configured <;> simp [hc, hf]

/-- C2: completing a session that holds at least 12 responses while every
AI endpoint call fails succeeds: the session ends `completed` with non-null
results whose overall score is the baseline 70, performance level
"Competent", and ROI multiplier at least 2.0. -/
theorem completeAssessment_ai_outage (env : FinalEnv) (now : String)
    (s : Session) (e : JsError) (h12 : 12 ≤ s.responses.length)
    (hf : env.callResult = Except.error e) :
    (completeAssessment env now s).1.status = SessionStatus.completed
  ∧ (completeAssessment env now s).2 =
      some (generateFinalResults env
        ⟨s.sessionId, s.responses, s.insights, s.userInfo⟩)
  ∧ (generateFinalResults env
      ⟨s.sessionId, s.responses, s.insights, s.userInfo⟩).overallScore = 70
  ∧ (generateFinalResults env
      ⟨s.sessionId, s.responses, s.insights, s.userInfo⟩).performanceLevel.level =
        "Competent"
  ∧ (2 : Rat) ≤ (generateFinalResults env
      ⟨s.sessionId, s.responses, s.insights, s.userInfo⟩).roiMultiplier := by
  have hnot : ¬ s.responses.length < 12 := by omega
  have hfb : ∀ req, generateFinalAssessment env req = getFallbackAssessment req :=
    fun req => generateFinalAssessment_fallback env req e hf
  refine ⟨?_, ?_, ?_, ?_, ?_⟩
  · simp [completeAssessment, hnot]
  · simp [completeAssessment, hnot]
  · simp [generateFinalResults, hfb, getFallbackAssessment]
  · simp [generateFinalResults, hfb, getFallbackAssessment]
  · simp [generateFinalResults, hfb, getFallbackAssessment]
    norm_num

/-- Witness for C2 at the 12-response sample session with an unreachable AI
endpoint. -/
theorem completeAssessment_ai_outage_witness :
    (completeAssessment demoFinalEnvFail "t9" demoSession12).1.status =
      SessionStatus.completed
  ∧ (completeAssessment demoFinalEnvFail "t9" demoSession12).2 =
      some (generateFinalResults demoFinalEnvFail
        ⟨demoSession12.sessionId, demoSession12.responses,
          demoSession12.insights, demoSession12.userInfo⟩)
  ∧ (generateFinalResults demoFinalEnvFail
      ⟨demoSession12.sessionId, demoSession12.responses,
        demoSession12.insights, demoSession12.userInfo⟩).overallScore = 70
  ∧ (generateFinalResults demoFinalEnvFail
      ⟨demoSession12.sessionId, demoSession12.responses,
        demoSession12.insights, demoSession12.userInfo⟩).performanceLevel.level =
          "Competent"
  ∧ (2 : Rat) ≤ (generateFinalResults demoFinalEnvFail
      ⟨demoSession12.sessionId, demoSession12.responses,
        demoSession12.insights, demoSession12.userInfo⟩).roiMultiplier :=
  completeAssessment_ai_outage demoFinalEnvFail "t9" demoSession12 demoExtErr
    (by decide) rfl

/-- A nodup list over {1, 2, 3} has at most three elements. -/
theorem length_le_three_of_nodup_mem {l : List Nat} (hn : l.Nodup)
    (hm : ∀ x ∈ l, x = 1 ∨ x = 2 ∨ x = 3) : l.length ≤ 3 := by
  have hsub : l.toFinset ⊆ ({1, 2, 3} : Finset Nat) := by
    intro x hx
    rcases hm x (List.mem_toFinset.mp hx) with h | h | h <;> simp [h]
  have hcard := Finset.card_le_card hsub
  rw [List.toFinset_card_of_nodup hn] at hcard
  simpa using hcard

/-- The engine batch analysis always yields an insight carrying the
requested batch number. -/
theorem analyzeBatch_ok (env : InsightEnv) (now : String) (b : Nat)
    (qr : String) (rs : List AssessmentResponse)
    (prev : Option (List Insight)) (sid : String) (u : UserInfo) :
    ∃ ins, analyzeBatch env now b qr rs prev sid u = Except.ok ins
      ∧ ins.batchNumber = b := by
  unfold analyzeBatch
  obtain ⟨ai, hai⟩ := generateInsight_isOk env
    { responses := rs
      batchNumber := b
      previousInsights := prev
      userInfo :=
        { company := orDefault u.company "Unknown Company"
          productName := orDefault u.productName "Unknown Product"
          businessModel := orDefault u.businessModel "Unknown Model" } }
  rw [hai]
  exact ⟨_, rfl, rfl⟩

/-- A session with no insight for batch `b` satisfies `hasBatch _ b =
false` exactly when no stored insight carries `b`. -/
theorem hasBatch_false_iff (s : Session) (b : Nat) :
    hasBatch s b = false ↔ ∀ i ∈ s.insights, i.batchNumber ≠ b := by
  simp [hasBatch]

/-- Characterisation of a fired insight milestone. -/
theorem insightMilestone_eq_some {s : Session} {b : Nat} {qr : String}
    (h : insightMilestone s = some (b, qr)) :
    (b = 1 ∧ s.responses.length = 4 ∧ hasBatch s 1 = false)
  ∨ (b = 2 ∧ s.responses.length = 9 ∧ hasBatch s 2 = false)
  ∨ (b = 3 ∧ s.responses.length = 12 ∧ hasBatch s 3 = false) := by
  unfold insightMilestone at h
  split_ifs at h with h1 h2 h3 <;> cases h
  · exact Or.inl ⟨rfl, h1.1, by simpa using h1.2⟩
  · exact Or.inr (Or.inl ⟨rfl, h2.1, by simpa using h2.2⟩)
  · exact Or.inr (Or.inr ⟨rfl, h3.1, by simpa using h3.2⟩)

/-- The batch invariant holds for a fresh session. -/
theorem goodBatches_start (u : UserInfo) (sid now : String) :
    GoodBatches (startSession u sid now) := by
  refine ⟨?_, ?_, ?_⟩ <;> simp [startSession, GoodBatches]

/-- Appending a response preserves the batch invariant. -/
theorem goodBatches_push (r : AssessmentResponse) (s : Session)
    (h : GoodBatches s) : GoodBatches (pushResponse r s) := by
  obtain ⟨h1, h2, h3⟩ := h
  refine ⟨h1, h2, ?_⟩
  intro i hi
  obtain ⟨g1, g2, g3⟩ := h3 i hi
  have hlen : (pushResponse r s).responses.length = s.responses.length + 1 := by
    simp [pushResponse]
  refine ⟨fun hb => ?_, fun hb => ?_, fun hb => ?_⟩
  · have := g1 hb; omega
  · have := g2 hb; omega
  · have := g3 hb; omega

/-- Generating the insight for a fired milestone preserves the batch
invariant: the guard guarantees the batch number is fresh and the response
count has reached the batch threshold. -/
theorem goodBatches_genFor (env : InsightEnv) (now : String) (s : Session)
    (b : Nat) (qr : String) (hmil : insightMilestone s = some (b, qr))
    (h : GoodBatches s) : GoodBatches (generateInsightFor env now s b qr) := by
  obtain ⟨h1, h2, h3⟩ := h
  obtain ⟨ins, hins, hbn⟩ := analyzeBatch_ok env now b qr (batchSlice s b)
    (if b = 1 then none else some s.insights) s.sessionId s.userInfo
  have hcases := insightMilestone_eq_some hmil
  simp only [generateInsightFor]
  rw [hins]
  dsimp only
  have hfresh : ∀ i ∈ s.insights, i.batchNumber ≠ b := by
    rcases hcases with ⟨hb, _, hno⟩ | ⟨hb, _, hno⟩ | ⟨hb, _, hno⟩ <;>
      subst hb <;> exact (hasBatch_false_iff s _).mp hno
  refine ⟨?_, ?_, ?_⟩
  · intro i hi
    rcases List.mem_append.mp hi with hold | hnew
    · exact h1 i hold
    · have : i = ins := by simpa using hnew
      subst this
      rw [hbn]
      rcases hcases with ⟨hb, _, _⟩ | ⟨hb, _, _⟩ | ⟨hb, _, _⟩ <;> subst hb <;> simp
  · rw [List.map_append, List.nodup_append]
    refine ⟨h2, List.nodup_singleton _, ?_⟩
    intro a ha hmem
    simp only [List.map_cons, List.map_nil, List.mem_singleton] at hmem
    obtain ⟨i, hi, hia⟩ := List.mem_map.mp ha
    apply hfresh i hi
    rw [hia, hmem]
    exact hbn
  · intro i hi
    show (i.batchNumber = 1 → 4 ≤ s.responses.length)
      ∧ (i.batchNumber = 2 → 9 ≤ s.responses.length)
      ∧ (i.batchNumber = 3 → 12 ≤ s.responses.length)
    rcases List.mem_append.mp hi with hold | hnew
    · exact h3 i hold
    · have : i = ins := by simpa using hnew
      subst this
      rcases hcases with ⟨hb, hlen, _⟩ | ⟨hb, hlen, _⟩ | ⟨hb, hlen, _⟩ <;>
        subst hb <;>
        refine ⟨fun hx => ?_, fun hx => ?_, fun hx => ?_⟩ <;>
        rw [hbn] at hx <;> omega

/-- `addResponse` preserves the batch invariant. -/
theorem goodBatches_add (env : InsightEnv) (now : String)
    (r : AssessmentResponse) (s : Session) (h : GoodBatches s) :
    GoodBatches (addResponse env now r s) := by
  have h1 := goodBatches_push r s h
  unfold addResponse checkForInsightGeneration
  cases hmil : insightMilestone (pushResponse r s) with
  | none => exact h1
  | some bq =>
    obtain ⟨b, qr⟩ := bq
    exact goodBatches_genFor env now _ b qr hmil h1

/-- `completeAssessment` preserves the batch invariant. -/
theorem goodBatches_complete (env : FinalEnv) (now : String) (s : Session)
    (h : GoodBatches s) : GoodBatches (completeAssessment env now s).1 := by
  unfold completeAssessment
  split
  · exact h
  · obtain ⟨h1, h2, h3⟩ := h
    exact ⟨h1, h2, h3⟩

/-- Every reachable session satisfies the batch invariant. -/
theorem reachable_goodBatches {s : Session} (hs : Reachable s) :
    GoodBatches s := by
  induction hs with
  | start u sid now => exact goodBatches_start u sid now
  | add env now r hs ih => exact goodBatches_add env now r _ ih
  | complete env now hs ih => exact goodBatches_complete env now _ ih

/-- C3: every session reachable through startAssessment, addResponse and
completeAssessment holds at most 3 insights, and no two of its insights
share a batch number. -/
theorem session_insights_invariant {s : Session} (hs : Reachable s) :
    s.insights.length ≤ 3 ∧ (s.insights.map Insight.batchNumber).Nodup := by
  obtain ⟨h1, h2, _⟩ := reachable_goodBatches hs
  refine ⟨?_, h2⟩
  have hlen := length_le_three_of_nodup_mem h2 (by
    intro x hx
    obtain ⟨i, hi, rfl⟩ := List.mem_map.mp hx
    exact h1 i hi)
  simpa using hlen

/-- The three-response sample session is reachable. -/
theorem demoSession3_reachable : Reachable demoSession3 := by
  unfold demoSession3 demoSession0
  exact Reachable.add _ _ _ (Reachable.add _ _ _
    (Reachable.add _ _ _ (Reachable.start _ _ _)))

/-- Witness for C3 at the three-response sample session. -/
theorem session_insights_invariant_witness :
    demoSession3.insights.length ≤ 3
  ∧ (demoSession3.insights.map Insight.batchNumber).Nodup :=
  session_insights_invariant demoSession3_reachable

/-- C4: appending a response to a reachable session makes the trigger of
`checkForInsightGeneration` fire exactly when the new response count is 4,
9 or 12 (batch 1, 2, 3 respectively) and at no other count — the
duplicate-batch guards never block these milestones on reachable sessions —
and the batch slice handed to the generator is responses[0:4] for batch 1,
responses[4:9] for batch 2 and responses[9:12] for batch 3
(`addResponse env now r s` is definitionally
`checkForInsightGeneration env now (pushResponse r s)`). -/
theorem addResponse_trigger_milestones (r : AssessmentResponse) {s : Session}
    (hs : Reachable s) :
    ((pushResponse r s).responses.length = 4 →
        insightMilestone (pushResponse r s) = some (1, "1-4"))
  ∧ ((pushResponse r s).responses.length = 9 →
        insightMilestone (pushResponse r s) = some (2, "5-9"))
  ∧ ((pushResponse r s).responses.length = 12 →
        insightMilestone (pushResponse r s) = some (3, "10-12"))
  ∧ ((pushResponse r s).responses.length ≠ 4 →
      (pushResponse r s).responses.length ≠ 9 →
      (pushResponse r s).responses.length ≠ 12 →
        insightMilestone (pushResponse r s) = none)
  ∧ batchSlice (pushResponse r s) 1 = (pushResponse r s).responses.take 4
  ∧ batchSlice (pushResponse r s) 2 =
      ((pushResponse r s).responses.drop 4).take 5
  ∧ batchSlice (pushResponse r s) 3 =
      ((pushResponse r s).responses.drop 9).take 3 := by
  obtain ⟨_, _, h3⟩ := reachable_goodBatches hs
  have hlen : (pushResponse r s).responses.length = s.responses.length + 1 := by
    simp [pushResponse]
  have hnb : ∀ b, (∀ i ∈ s.insights, i.batchNumber = b →
      ¬ (pushResponse r s).responses.length = b + b) → True := fun _ _ => trivial
  have hfresh : ∀ b lo, (∀ i ∈ s.insights, i.batchNumber = b →
        lo ≤ s.responses.length) →
      s.responses.length < lo → hasBatch (pushResponse r s) b = false := by
    intro b lo hcond hlt
    have : hasBatch (pushResponse r s) b = hasBatch s b := rfl
    rw [this, hasBatch_false_iff]
    intro i hi hb
    exact absurd (hcond i hi hb) (by omega)
  refine ⟨?_, ?_, ?_, ?_, rfl, rfl, rfl⟩
  · intro h4
    have hb1 : hasBatch (pushResponse r s) 1 = false :=
      hfresh 1 4 (fun i hi hb => (h3 i hi).1 hb) (by omega)
    unfold insightMilestone
    rw [if_pos ⟨h4, by simp [hb1]⟩]
  · intro h9
    have hb2 : hasBatch (pushResponse r s) 2 = false :=
      hfresh 2 9 (fun i hi hb => (h3 i hi).2.1 hb) (by omega)
    unfold insightMilestone
    rw [if_neg (fun hc => by omega : ¬((pushResponse r s).responses.length = 4 ∧
        ¬ hasBatch (pushResponse r s) 1))]
    rw [if_pos ⟨h9, by simp [hb2]⟩]
  · intro h12
    have hb3 : hasBatch (pushResponse r s) 3 = false :=
      hfresh 3 12 (fun i hi hb => (h3 i hi).2.2 hb) (by omega)
    unfold insightMilestone
    rw [if_neg (fun hc => by omega : ¬((pushResponse r s).responses.length = 4 ∧
        ¬ hasBatch (pushResponse r s) 1))]
    rw [if_neg (fun hc => by omega : ¬((pushResponse r s).responses.length = 9 ∧
        ¬ hasBatch (pushResponse r s) 2))]
    rw [if_pos ⟨h12, by simp [hb3]⟩]
  · intro h4 h9 h12
    unfold insightMilestone
    rw [if_neg (fun hc => h4 hc.1), if_neg (fun hc => h9 hc.1),
      if_neg (fun hc => h12 hc.1)]

/-- Witness for C4: the 4th response on the three-response sample session
fires batch 1 with the first four responses. -/
theorem addResponse_trigger_milestones_witness :
    insightMilestone (pushResponse (demoResponse 4) demoSession3) = some (1, "1-4")
  ∧ batchSlice (pushResponse (demoResponse 4) demoSession3) 1 =
      (pushResponse (demoResponse 4) demoSession3).responses.take 4 := by
  have h := addResponse_trigger_milestones (demoResponse 4) demoSession3_reachable
  exact ⟨h.1 (by decide), h.2.2.2.2.1⟩

end AndruSpec
